import Mathlib

/-!
Shallow embedding of the `mwalto7/vault` client library: the three secrets
facades (cubbyhole single-value store, versionless KVv1, versioned KVv2)
built over the `vault.LogicalClient` transport interface.

Each Go facade method becomes a Lean function from a client state
(`Client`, holding the mount path), an injected transport
(`Transport`, the `vault.LogicalClient` the claims' mocks stand for), and
the method arguments, to an `Out α`: the Go return value as
`Except GoError α`, the ordered list of transport calls issued, and the
final client state (the source mutates `c.mountPath` in `secretPath`).
-/

namespace VaultModel

/-- JSON-like dynamic values: the model of Go `interface{}` values stored in
`map[string]interface{}` envelopes. Integers are exact (`Int`); the numeric
values the claims exercise are Go `int`s serialized and compared exactly. -/
inductive JVal where
  | jnull
  | jbool (b : Bool)
  | jint (n : Int)
  | jstr (s : String)
  | jarr (xs : List JVal)
  | jobj (fields : List (String × JVal))

/-- A Go `map[string]interface{}`, modelled as an association list. -/
abbrev SMap := List (String × JVal)

/-! ### Go `path` package: `path.Clean` and `path.Join`

The source aliases `var pathJoin = path.Join`. Go's `Join` drops leading
empty elements, joins the rest with `/` and applies the lexical `Clean`. -/

/-- Split a string on `/` into its components (kernel-computable model of
`strings.Split(s, "/")`); `cur` is the reversed current component. -/
def splitSlashAux : List Char → List Char → List String
  | [], cur => [String.mk cur.reverse]
  | ch :: rest, cur =>
    if ch = '/' then String.mk cur.reverse :: splitSlashAux rest []
    else splitSlashAux rest (ch :: cur)

/-- Split a path into its `/`-separated components. -/
def splitSlash (s : String) : List String := splitSlashAux s.data []

/-- Join components with `/` (model of `strings.Join(elems, "/")`). -/
def joinSlash : List String → String
  | [] => ""
  | [s] => s
  | s :: rest => s ++ "/" ++ joinSlash rest

/-- Whether a path is rooted (begins with `/`). -/
def isRooted (s : String) : Bool :=
  match s.data with
  | ch :: _ => ch = '/'
  | [] => false

/-- One pass of Go `path.Clean` over the `/`-separated components.
`acc` is the (reversed) output stack; `rooted` tells whether the input
began with `/` (leading `..` components are dropped when rooted). -/
def goCleanAux (rooted : Bool) : List String → List String → List String
  | acc, [] => acc.reverse
  | acc, comp :: rest =>
    if comp = "" ∨ comp = "." then goCleanAux rooted acc rest
    else if comp = ".." then
      match acc with
      | [] => if rooted then goCleanAux rooted [] rest
              else goCleanAux rooted [".."] rest
      | top :: below =>
        if top = ".." then goCleanAux rooted (comp :: top :: below) rest
        else goCleanAux rooted below rest
    else goCleanAux rooted (comp :: acc) rest

/-- Go `path.Clean`: lexical cleanup of a slash-separated path. -/
def goClean (p : String) : String :=
  if p = "" then "."
  else
    let rooted := isRooted p
    let comps := goCleanAux rooted [] (splitSlash p)
    if comps.isEmpty then (if rooted then "/" else ".")
    else (if rooted then "/" else "") ++ joinSlash comps

/-- Go `path.Join` (the source's `pathJoin`): skip leading empty elements,
join the remainder (later empties included) with `/`, then `Clean`. -/
def pathJoin : List String → String
  | [] => ""
  | e :: rest => if e = "" then pathJoin rest
                 else goClean (joinSlash (e :: rest))

/-! ### Errors -/

/-- Go `error` values produced or passed through by the facades. -/
inductive GoError where
  /-- `cubbyhole.ErrEmptyPath` (sentinel). -/
  | errEmptyPath
  /-- `cubbyhole.ErrNoSecretData` (sentinel not-found cause). -/
  | errNoSecretData
  /-- `errors.New(msg)` values created inline by the KV facades. -/
  | errorsNew (msg : String)
  /-- `*os.PathError{Op, Path, Err}`: a path-scoped error wrapping a cause. -/
  | pathError (op : String) (path : String) (err : GoError)
  /-- An opaque failure returned by the transport, passed through unchanged. -/
  | transportFailure (n : Nat)
  /-- A `mapstructure` structural decode failure. -/
  | decodeErr (msg : String)
deriving DecidableEq

/-! ### Transport (`vault.LogicalClient`) -/

/-- The `*api.Secret` response envelope; only its `Data` field is consumed
by this repository, so only it is modelled. -/
structure ApiSecret where
  data : SMap

/-- One call through the `vault.LogicalClient` interface. -/
inductive LogicalCall where
  | read (path : String)
  | readWithData (path : String) (query : List (String × List String))
  | list (path : String)
  | write (path : String) (data : SMap)
  | delete (path : String)
  | deleteWithData (path : String) (query : List (String × List String))
  | unwrap (wrappingToken : String)

/-- A transport: maps each call to a response (`none` models a nil
`*api.Secret`) or an error. Claims quantify over these (mocked) transports. -/
abbrev Transport := LogicalCall → Except GoError (Option ApiSecret)

/-- The source's emptiness test `secret == nil || len(secret.Data) == 0`. -/
def isEmptyResp : Option ApiSecret → Bool
  | none => true
  | some s => s.data.isEmpty

/-- `secret.Data` of a (possibly nil) envelope. -/
def respData : Option ApiSecret → SMap
  | none => []
  | some s => s.data

/-! ### Client state and call outcome -/

/-- A facade client value: the mount path field. The transport field of the
Go struct is modelled as the explicitly passed `Transport` (the claims all
inject a mock, so `vaultClient()` returns it without error). -/
structure Client where
  mountPath : String
deriving DecidableEq

/-- Outcome of one facade operation: the Go result, the transport calls
issued (in order), and the final client state. -/
structure Out (α : Type) where
  res : Except GoError α
  calls : List LogicalCall
  fin : Client

/-- Mount-path defaulting: `if c.mountPath == "" { c.mountPath = d }`. -/
def mountOr (m d : String) : String := if m = "" then d else m

/-! ### `mapstructure.Decode` model

The facades decode `secret.Data` into auxiliary structs with
`mapstructure.Decode`. Without a `mapstructure` struct tag, mapstructure
matches a field by its Go field NAME (the `json` tags on the exported
types are not read by mapstructure); a map key matches first by exact
equality and otherwise by case-insensitive (`strings.EqualFold`) equality.
Unmatched struct fields keep their zero value and unused map keys are
ignored (the source never sets `ErrorUnused`/`ErrorUnset`); a matched
value of an incompatible shape is a decode error. A `nil` value leaves the
target untouched (zero). -/

/-- ASCII lower-casing of one character. -/
def foldChar (ch : Char) : Char :=
  if 'A' ≤ ch ∧ ch ≤ 'Z' then Char.ofNat (ch.toNat + 32) else ch

/-- ASCII model of `strings.EqualFold` (all keys involved are ASCII). -/
def eqFold (a b : String) : Bool := a.data.map foldChar == b.data.map foldChar

/-- Exact key lookup in an envelope map. -/
def lookupExact (m : SMap) (k : String) : Option JVal :=
  (m.find? (fun kv => kv.fst == k)).map (fun kv => kv.snd)

/-- mapstructure key matching: exact first, then case-insensitive. -/
def lookupFold (m : SMap) (k : String) : Option JVal :=
  match lookupExact m k with
  | some v => some v
  | none => (m.find? (fun kv => eqFold kv.fst k)).map (fun kv => kv.snd)

/-- Decode one struct field: absent keys keep the zero value `dflt`. -/
def decodeField {α : Type} (m : SMap) (name : String)
    (dec : JVal → Except GoError α) (dflt : α) : Except GoError α :=
  match lookupFold m name with
  | none => .ok dflt
  | some v => dec v

/-- Decode into a Go `int` (or `time.Duration`) field. -/
def decodeInt : JVal → Except GoError Int
  | .jnull => .ok 0
  | .jint n => .ok n
  | _ => .error (.decodeErr "expected an integer")

/-- Decode into a Go `bool` field. -/
def decodeBool : JVal → Except GoError Bool
  | .jnull => .ok false
  | .jbool b => .ok b
  | _ => .error (.decodeErr "expected a bool")

/-- Go `time.Time`, opaque here: only its zero value is ever produced,
because `time.Time` has no exported fields, so strict mapstructure either
fills nothing (map source) or fails (non-map source). -/
structure GoTime where
  v : Int := 0
deriving DecidableEq

/-- Decode into a `time.Time` field: a map source sets no (unexported)
fields and leaves the zero time; any scalar source is a type mismatch. -/
def decodeTime : JVal → Except GoError GoTime
  | .jnull => .ok {}
  | .jobj _ => .ok {}
  | _ => .error (.decodeErr "expected a map for time.Time")

/-- Decode one element of a `[]string` field. -/
def decodeStringElem : JVal → Except GoError String
  | .jstr s => .ok s
  | _ => .error (.decodeErr "expected a string element")

/-- Decode into a `[]string` field (`nil` slice kept distinct as `none`). -/
def decodeStringList : JVal → Except GoError (Option (List String))
  | .jnull => .ok none
  | .jarr xs => (xs.mapM decodeStringElem).map some
  | _ => .error (.decodeErr "expected a list of strings")

/-- Decode into a `map[string]interface{}` field (`nil` map as `none`). -/
def decodeSMap : JVal → Except GoError (Option SMap)
  | .jnull => .ok none
  | .jobj m => .ok (some m)
  | _ => .error (.decodeErr "expected a map")

/-! ### KVv2 exported types (`SecretConfig`, `SecretVersion`,
`SecretMetadata`, `Secret`) and their decoders/serializers.
`time.Duration` is an `Int` of nanoseconds. -/

/-- `kv.SecretConfig`: engine/secret configuration. -/
structure SecretConfig where
  MaxVersions : Int := 0
  CASRequired : Bool := false
  DeleteVersionAfter : Int := 0
deriving DecidableEq

/-- `kv.SecretVersion`: metadata of one secret version. -/
structure SecretVersion where
  CreatedTime : GoTime := {}
  DeletionTime : GoTime := {}
  Destroyed : Bool := false
  Version : Int := 0
deriving DecidableEq

/-- `kv.SecretMetadata`: full metadata of a secret. -/
structure SecretMetadata where
  CreatedTime : GoTime := {}
  CurrentVersion : Int := 0
  MaxVersions : Int := 0
  OldestVersion : Int := 0
  UpdatedTime : GoTime := {}
  Versions : List (String × SecretVersion) := []
deriving DecidableEq

/-- `kv.Secret`: secret data plus its version metadata. -/
structure Secret where
  Data : Option SMap := none
  Metadata : SecretVersion := {}

/-- mapstructure decode into `SecretConfig` (field names `MaxVersions`,
`CASRequired`, `DeleteVersionAfter`; the `json` tags are not consulted). -/
def decodeSecretConfig : JVal → Except GoError SecretConfig
  | .jnull => .ok {}
  | .jobj m => do
    let mv ← decodeField m "MaxVersions" decodeInt 0
    let cr ← decodeField m "CASRequired" decodeBool false
    let dva ← decodeField m "DeleteVersionAfter" decodeInt 0
    .ok { MaxVersions := mv, CASRequired := cr, DeleteVersionAfter := dva }
  | _ => .error (.decodeErr "expected a map for SecretConfig")

/-- mapstructure decode into `SecretVersion`. -/
def decodeSecretVersion : JVal → Except GoError SecretVersion
  | .jnull => .ok {}
  | .jobj m => do
    let ct ← decodeField m "CreatedTime" decodeTime {}
    let dt ← decodeField m "DeletionTime" decodeTime {}
    let ds ← decodeField m "Destroyed" decodeBool false
    let v ← decodeField m "Version" decodeInt 0
    .ok { CreatedTime := ct, DeletionTime := dt, Destroyed := ds, Version := v }
  | _ => .error (.decodeErr "expected a map for SecretVersion")

/-- mapstructure decode into `map[string]SecretVersion`. -/
def decodeVersionsMap : JVal → Except GoError (List (String × SecretVersion))
  | .jnull => .ok []
  | .jobj m => m.mapM (fun kv => do
      let v ← decodeSecretVersion kv.snd
      pure (kv.fst, v))
  | _ => .error (.decodeErr "expected a map for versions")

/-- mapstructure decode into `SecretMetadata`. -/
def decodeSecretMetadata : JVal → Except GoError SecretMetadata
  | .jnull => .ok {}
  | .jobj m => do
    let ct ← decodeField m "CreatedTime" decodeTime {}
    let cv ← decodeField m "CurrentVersion" decodeInt 0
    let mv ← decodeField m "MaxVersions" decodeInt 0
    let ov ← decodeField m "OldestVersion" decodeInt 0
    let ut ← decodeField m "UpdatedTime" decodeTime {}
    let vs ← decodeField m "Versions" decodeVersionsMap []
    .ok { CreatedTime := ct, CurrentVersion := cv, MaxVersions := mv,
          OldestVersion := ov, UpdatedTime := ut, Versions := vs }
  | _ => .error (.decodeErr "expected a map for SecretMetadata")

/-- mapstructure decode into `Secret` (fields `Data`, `Metadata`). -/
def decodeSecret : JVal → Except GoError Secret
  | .jnull => .ok {}
  | .jobj m => do
    let d ← decodeField m "Data" decodeSMap none
    let md ← decodeField m "Metadata" decodeSecretVersion {}
    .ok { Data := d, Metadata := md }
  | _ => .error (.decodeErr "expected a map for Secret")

/-- The `aux struct { X T mapstructure:"data" }` wrapper used by the KVv2
read paths: decode the envelope's `data` field, zero value when absent. -/
def decodeDataEnvelope {α : Type} (dec : JVal → Except GoError α) (dflt : α)
    (m : SMap) : Except GoError α :=
  decodeField m "data" dec dflt

/-- Cubbyhole/KVv1 list decode: `aux struct { Keys []string
mapstructure:"keys" }` over the envelope map. -/
def decodeKeysEnvelope (m : SMap) : Except GoError (Option (List String)) :=
  decodeField m "keys" decodeStringList none

/-- KVv2 list decode: the outer aux field `Data` carries only a `json` tag,
so mapstructure matches the field NAME `Data` (case-insensitively reaching
the conventional `data` key); the inner `Keys` field is tagged `keys`. -/
def decodeKeysEnvelopeV2 (m : SMap) : Except GoError (Option (List String)) :=
  match lookupFold m "Data" with
  | none => .ok none
  | some .jnull => .ok none
  | some (.jobj inner) => decodeField inner "keys" decodeStringList none
  | some _ => .error (.decodeErr "expected a map for data")

/-- `json.Marshal` of a `SecretConfig` followed by `json.Unmarshal` into a
generic map: the `json` tags name the keys and `omitempty` drops zero
fields; field order is the declaration order. (Go's generic unmarshal
stores numbers as float64; the integral values written by this client are
represented exactly, so they are modelled as exact `Int`s.) -/
def serializeSecretConfig (cfg : SecretConfig) : SMap :=
  (if cfg.MaxVersions ≠ 0 then [("max_versions", JVal.jint cfg.MaxVersions)] else [])
  ++ (if cfg.CASRequired then [("cas_required", JVal.jbool cfg.CASRequired)] else [])
  ++ (if cfg.DeleteVersionAfter ≠ 0
      then [("delete_version_after", JVal.jint cfg.DeleteVersionAfter)] else [])

/-! ### Cubbyhole facade (`secrets/cubbyhole/client.go`) -/

namespace Cubbyhole

/-- `cubbyhole.defaultMountPath`. -/
def defaultMountPath : String := "/cubbyhole"

/-- `(*Client).secretPath`: reject an empty path, default the mount, join.
Returns the built path and the client after the mount-path mutation. -/
def secretPath (c : Client) (path : String) : Except GoError (String × Client) :=
  if path = "" then .error .errEmptyPath
  else
    let m := mountOr c.mountPath defaultMountPath
    .ok (pathJoin [m, path], { mountPath := m })

/-- `(*Client).ReadSecret`. -/
def ReadSecret (c : Client) (tr : Transport) (path : String) : Out (Option SMap) :=
  match secretPath c path with
  | .error e => ⟨.error e, [], c⟩
  | .ok (p, c') =>
    let res : Except GoError (Option SMap) :=
      match tr (.read p) with
      | .error e => .error e
      | .ok resp =>
        if isEmptyResp resp then
          .error (.pathError "ReadSecret" p .errNoSecretData)
        else .ok (some (respData resp))
    ⟨res, [.read p], c'⟩

/-- `(*Client).ListSecrets`. -/
def ListSecrets (c : Client) (tr : Transport) (path : String) : Out (Option (List String)) :=
  match secretPath c path with
  | .error e => ⟨.error e, [], c⟩
  | .ok (p, c') =>
    let res : Except GoError (Option (List String)) :=
      match tr (.list p) with
      | .error e => .error e
      | .ok resp =>
        if isEmptyResp resp then
          .error (.pathError "ListSecrets" p .errNoSecretData)
        else decodeKeysEnvelope (respData resp)
    ⟨res, [.list p], c'⟩

/-- `(*Client).WriteSecret`. -/
def WriteSecret (c : Client) (tr : Transport) (path : String) (data : SMap) : Out Unit :=
  match secretPath c path with
  | .error e => ⟨.error e, [], c⟩
  | .ok (p, c') =>
    let res : Except GoError Unit :=
      match tr (.write p data) with
      | .error e => .error e
      | .ok _ => .ok ()
    ⟨res, [.write p data], c'⟩

/-- `(*Client).DeleteSecret`. -/
def DeleteSecret (c : Client) (tr : Transport) (path : String) : Out Unit :=
  match secretPath c path with
  | .error e => ⟨.error e, [], c⟩
  | .ok (p, c') =>
    let res : Except GoError Unit :=
      match tr (.delete p) with
      | .error e => .error e
      | .ok _ => .ok ()
    ⟨res, [.delete p], c'⟩

end Cubbyhole

/-! ### KVv1 facade (`secrets/kv/v1/client.go`) -/

namespace Kv1

/-- `kv.defaultMountPath` (v1). -/
def defaultMountPath : String := "/secret"

/-- `(*Client).secretPath` (v1). -/
def secretPath (c : Client) (path : String) : Except GoError (String × Client) :=
  if path = "" then .error (.errorsNew "vault: secret path is empty")
  else
    let m := mountOr c.mountPath defaultMountPath
    .ok (pathJoin [m, path], { mountPath := m })

/-- `(*Client).ReadSecret` (v1): an empty/nil response is `nil, nil`. -/
def ReadSecret (c : Client) (tr : Transport) (path : String) : Out (Option SMap) :=
  match secretPath c path with
  | .error e => ⟨.error e, [], c⟩
  | .ok (p, c') =>
    let res : Except GoError (Option SMap) :=
      match tr (.read p) with
      | .error e => .error e
      | .ok resp =>
        if isEmptyResp resp then .ok none
        else .ok (some (respData resp))
    ⟨res, [.read p], c'⟩

/-- `(*Client).ListSecrets` (v1): an empty/nil response is `nil, nil`. -/
def ListSecrets (c : Client) (tr : Transport) (path : String) : Out (Option (List String)) :=
  match secretPath c path with
  | .error e => ⟨.error e, [], c⟩
  | .ok (p, c') =>
    let res : Except GoError (Option (List String)) :=
      match tr (.list p) with
      | .error e => .error e
      | .ok resp =>
        if isEmptyResp resp then .ok none
        else decodeKeysEnvelope (respData resp)
    ⟨res, [.list p], c'⟩

/-- `(*Client).WriteSecret` (v1). -/
def WriteSecret (c : Client) (tr : Transport) (path : String) (data : SMap) : Out Unit :=
  match secretPath c path with
  | .error e => ⟨.error e, [], c⟩
  | .ok (p, c') =>
    let res : Except GoError Unit :=
      match tr (.write p data) with
      | .error e => .error e
      | .ok _ => .ok ()
    ⟨res, [.write p data], c'⟩

/-- `(*Client).DeleteSecret` (v1). -/
def DeleteSecret (c : Client) (tr : Transport) (path : String) : Out Unit :=
  match secretPath c path with
  | .error e => ⟨.error e, [], c⟩
  | .ok (p, c') =>
    let res : Except GoError Unit :=
      match tr (.delete p) with
      | .error e => .error e
      | .ok _ => .ok ()
    ⟨res, [.delete p], c'⟩

end Kv1

/-! ### KVv2 facade (`secrets/kv/v2/client.go`) -/

namespace Kv2

/-- `kv.defaultMountPath` (v2). -/
def defaultMountPath : String := "/secret"

/-- `(*Client).secretPath` (v2): reject an empty path, default the mount,
then join `mount / (metadata|data) / path`. -/
def secretPath (c : Client) (path : String) (metadata : Bool) :
    Except GoError (String × Client) :=
  if path = "" then .error (.errorsNew "kv2: secret path is empty")
  else
    let m := mountOr c.mountPath defaultMountPath
    let seg := if metadata then "metadata" else "data"
    .ok (pathJoin [m, seg, path], { mountPath := m })

/-- `(*Client).SetEngineConfig`: serialize the config through the JSON
round trip and write it to `<mount>/config`. No path validation and no
mount defaulting (the path skips `secretPath`). -/
def SetEngineConfig (c : Client) (tr : Transport) (cfg : SecretConfig) : Out Unit :=
  let p := pathJoin [c.mountPath, "config"]
  let data := serializeSecretConfig cfg
  let res : Except GoError Unit :=
    match tr (.write p data) with
    | .error e => .error e
    | .ok _ => .ok ()
  ⟨res, [.write p data], c⟩

/-- `(*Client).EngineConfig`: read `<mount>/config`, zero config on an
empty/nil response, otherwise decode the envelope's `data` field. -/
def EngineConfig (c : Client) (tr : Transport) : Out SecretConfig :=
  let p := pathJoin [c.mountPath, "config"]
  let res : Except GoError SecretConfig :=
    match tr (.read p) with
    | .error e => .error e
    | .ok resp =>
      if isEmptyResp resp then .ok {}
      else decodeDataEnvelope decodeSecretConfig {} (respData resp)
  ⟨res, [.read p], c⟩

/-- `(*Client).ReadSecretVersion`: data path; a non-negative version is a
`ReadWithData` with the decimal version under query key `version`, a
negative version is a plain `Read`. Empty/nil response is the zero value. -/
def ReadSecretVersion (c : Client) (tr : Transport) (path : String) (version : Int) :
    Out Secret :=
  match secretPath c path false with
  | .error e => ⟨.error e, [], c⟩
  | .ok (p, c') =>
    let call := if version > -1
      then LogicalCall.readWithData p [("version", [toString version])]
      else LogicalCall.read p
    let res : Except GoError Secret :=
      match tr call with
      | .error e => .error e
      | .ok resp =>
        if isEmptyResp resp then .ok {}
        else decodeDataEnvelope decodeSecret {} (respData resp)
    ⟨res, [call], c'⟩

/-- `(*Client).ReadSecretLatest` = `ReadSecretVersion` at version `-1`. -/
def ReadSecretLatest (c : Client) (tr : Transport) (path : String) : Out Secret :=
  ReadSecretVersion c tr path (-1)

/-- The payload map `d` built by `WriteSecretVersion`: the caller's data
under `"data"`, plus `options.cas = version` when `version > -1`. -/
def writeVersionPayload (version : Int) (data : SMap) : SMap :=
  if version > -1 then
    [("data", JVal.jobj data), ("options", JVal.jobj [("cas", JVal.jint version)])]
  else
    [("data", JVal.jobj data)]

/-- `(*Client).WriteSecretVersion`. -/
def WriteSecretVersion (c : Client) (tr : Transport) (path : String) (version : Int)
    (data : SMap) : Out SecretVersion :=
  match secretPath c path false with
  | .error e => ⟨.error e, [], c⟩
  | .ok (p, c') =>
    let d := writeVersionPayload version data
    let res : Except GoError SecretVersion :=
      match tr (.write p d) with
      | .error e => .error e
      | .ok resp =>
        if isEmptyResp resp then .ok {}
        else decodeDataEnvelope decodeSecretVersion {} (respData resp)
    ⟨res, [.write p d], c'⟩

/-- `(*Client).WriteSecretLatest` = `WriteSecretVersion` at version `-1`. -/
def WriteSecretLatest (c : Client) (tr : Transport) (path : String) (data : SMap) :
    Out SecretVersion :=
  WriteSecretVersion c tr path (-1) data

/-- `(*Client).DeleteSecretLatest`: delete at the data path. -/
def DeleteSecretLatest (c : Client) (tr : Transport) (path : String) : Out Unit :=
  match secretPath c path false with
  | .error e => ⟨.error e, [], c⟩
  | .ok (p, c') =>
    let res : Except GoError Unit :=
      match tr (.delete p) with
      | .error e => .error e
      | .ok _ => .ok ()
    ⟨res, [.delete p], c'⟩

/-- `(*Client).DeleteSecretVersion`: writes `{versions: [...]}` to
`<mount>/delete/<path>`. NOTE (faithful to the source): unlike its two
siblings it performs NO zero-versions check, and like them it performs no
path validation and no mount defaulting (`secretPath` is not called). -/
def DeleteSecretVersion (c : Client) (tr : Transport) (path : String)
    (version : List Int) : Out Unit :=
  let p := pathJoin [c.mountPath, "delete", path]
  let d : SMap := [("versions", JVal.jarr (version.map JVal.jint))]
  let res : Except GoError Unit :=
    match tr (.write p d) with
    | .error e => .error e
    | .ok _ => .ok ()
  ⟨res, [.write p d], c⟩

/-- `(*Client).UndeleteSecretVersion`: rejects an empty versions list, then
writes `{versions: [...]}` to `<mount>/undelete/<path>` (no path
validation, no mount defaulting). -/
def UndeleteSecretVersion (c : Client) (tr : Transport) (path : String)
    (version : List Int) : Out Unit :=
  if version.isEmpty then
    ⟨.error (.errorsNew "kv2: must specify at least one version"), [], c⟩
  else
    let p := pathJoin [c.mountPath, "undelete", path]
    let d : SMap := [("versions", JVal.jarr (version.map JVal.jint))]
    let res : Except GoError Unit :=
      match tr (.write p d) with
      | .error e => .error e
      | .ok _ => .ok ()
    ⟨res, [.write p d], c⟩

/-- `(*Client).DestroySecretVersion`: rejects an empty versions list, then
writes `{versions: [...]}` to `<mount>/destroy/<path>` (no path
validation, no mount defaulting). -/
def DestroySecretVersion (c : Client) (tr : Transport) (path : String)
    (version : List Int) : Out Unit :=
  if version.isEmpty then
    ⟨.error (.errorsNew "kv2: must specify at least one version"), [], c⟩
  else
    let p := pathJoin [c.mountPath, "destroy", path]
    let d : SMap := [("versions", JVal.jarr (version.map JVal.jint))]
    let res : Except GoError Unit :=
      match tr (.write p d) with
      | .error e => .error e
      | .ok _ => .ok ()
    ⟨res, [.write p d], c⟩

/-- `(*Client).ListSecrets` (v2): list at the metadata path; empty/nil
response is `nil, nil`; otherwise decode the nested `data.keys`. -/
def ListSecrets (c : Client) (tr : Transport) (path : String) : Out (Option (List String)) :=
  match secretPath c path true with
  | .error e => ⟨.error e, [], c⟩
  | .ok (p, c') =>
    let res : Except GoError (Option (List String)) :=
      match tr (.list p) with
      | .error e => .error e
      | .ok resp =>
        if isEmptyResp resp then .ok none
        else decodeKeysEnvelopeV2 (respData resp)
    ⟨res, [.list p], c'⟩

/-- `(*Client).ReadSecretMetadata`: issues a LIST (not a read) at the same
metadata path as `ListSecrets`, then decodes the envelope's `data` field
into `SecretMetadata`. -/
def ReadSecretMetadata (c : Client) (tr : Transport) (path : String) : Out SecretMetadata :=
  match secretPath c path true with
  | .error e => ⟨.error e, [], c⟩
  | .ok (p, c') =>
    let res : Except GoError SecretMetadata :=
      match tr (.list p) with
      | .error e => .error e
      | .ok resp =>
        if isEmptyResp resp then .ok {}
        else decodeDataEnvelope decodeSecretMetadata {} (respData resp)
    ⟨res, [.list p], c'⟩

/-- `(*Client).WriteSecretMetadata`: write the JSON-serialized config at
the metadata path. -/
def WriteSecretMetadata (c : Client) (tr : Transport) (path : String)
    (cfg : SecretConfig) : Out Unit :=
  match secretPath c path true with
  | .error e => ⟨.error e, [], c⟩
  | .ok (p, c') =>
    let data := serializeSecretConfig cfg
    let res : Except GoError Unit :=
      match tr (.write p data) with
      | .error e => .error e
      | .ok _ => .ok ()
    ⟨res, [.write p data], c'⟩

/-- `(*Client).DeleteSecretMetadata`: delete at the metadata path. -/
def DeleteSecretMetadata (c : Client) (tr : Transport) (path : String) : Out Unit :=
  match secretPath c path true with
  | .error e => ⟨.error e, [], c⟩
  | .ok (p, c') =>
    let res : Except GoError Unit :=
      match tr (.delete p) with
      | .error e => .error e
      | .ok _ => .ok ()
    ⟨res, [.delete p], c'⟩

end Kv2

/-! ### Concrete transports used to instantiate theorems -/

/-- A transport that answers every call with a nil envelope. -/
def trOkNone : Transport := fun _ => .ok none

/-! ### Helper lemmas about the path builders -/

/-- `secretPath` (cubbyhole) on a non-empty path: the mount is defaulted
and the joined path returned. -/
theorem cubbyhole_secretPath_ok (c : Client) (path : String) (hp : path ≠ "") :
    Cubbyhole.secretPath c path
      = .ok (pathJoin [mountOr c.mountPath Cubbyhole.defaultMountPath, path],
             { mountPath := mountOr c.mountPath Cubbyhole.defaultMountPath }) := by
  simp [Cubbyhole.secretPath, hp]

/-- `secretPath` (KVv1) on a non-empty path. -/
theorem kv1_secretPath_ok (c : Client) (path : String) (hp : path ≠ "") :
    Kv1.secretPath c path
      = .ok (pathJoin [mountOr c.mountPath Kv1.defaultMountPath, path],
             { mountPath := mountOr c.mountPath Kv1.defaultMountPath }) := by
  simp [Kv1.secretPath, hp]

/-- `secretPath` (KVv2) on a non-empty path. -/
theorem kv2_secretPath_ok (c : Client) (path : String) (metadata : Bool) (hp : path ≠ "") :
    Kv2.secretPath c path metadata
      = .ok (pathJoin [mountOr c.mountPath Kv2.defaultMountPath,
                       if metadata then "metadata" else "data", path],
             { mountPath := mountOr c.mountPath Kv2.defaultMountPath }) := by
  simp [Kv2.secretPath, hp]

/-! ### Claims -/

/-- C1: for every path, data map and integer version, the payload that
`WriteSecretVersion` passes to the transport `Write` carries the caller's
data map unchanged under `"data"`; when `version < 0` it has no
`"options"` key, and when `version ≥ 0` its `"options"` map's `"cas"`
entry equals exactly the given version. -/
theorem c1_writeSecretVersion_payload (c : Client) (tr : Transport) (path : String)
    (version : Int) (data : SMap) (hp : path ≠ "") :
    ∃ d, (Kv2.WriteSecretVersion c tr path version data).calls
        = [LogicalCall.write
            (pathJoin [mountOr c.mountPath Kv2.defaultMountPath, "data", path]) d]
      ∧ lookupExact d "data" = some (JVal.jobj data)
      ∧ (version < 0 → lookupExact d "options" = none)
      ∧ (0 ≤ version →
          lookupExact d "options" = some (JVal.jobj [("cas", JVal.jint version)])) := by
  refine ⟨Kv2.writeVersionPayload version data, ?_, ?_, ?_, ?_⟩
  · simp [Kv2.WriteSecretVersion, kv2_secretPath_ok c path false hp]
  · by_cases h : version > -1 <;>
      simp [Kv2.writeVersionPayload, h, lookupExact, List.find?]
  · intro hv
    have h : ¬ version > -1 := by omega
    simp [Kv2.writeVersionPayload, h, lookupExact, List.find?]
  · intro hv
    have h : version > -1 := by omega
    simp [Kv2.writeVersionPayload, h, lookupExact, List.find?]

/-- Witness for C1 at a concrete input (`version = 5`). -/
theorem c1_writeSecretVersion_payload_witness :
    ("app" : String) ≠ ""
    ∧ (∃ d, (Kv2.WriteSecretVersion ⟨"/secret"⟩ trOkNone "app" 5
              [("k", JVal.jstr "v")]).calls
          = [LogicalCall.write
              (pathJoin [mountOr (Client.mk "/secret").mountPath Kv2.defaultMountPath,
                         "data", "app"]) d]
        ∧ lookupExact d "data" = some (JVal.jobj [("k", JVal.jstr "v")])
        ∧ ((5 : Int) < 0 → lookupExact d "options" = none)
        ∧ ((0 : Int) ≤ 5 →
            lookupExact d "options" = some (JVal.jobj [("cas", JVal.jint 5)]))) :=
  ⟨by decide,
   c1_writeSecretVersion_payload ⟨"/secret"⟩ trOkNone "app" 5
     [("k", JVal.jstr "v")] (by decide)⟩

/-- C2 (code bug): `DeleteSecretVersion` with zero versions does NOT
return a validation error — it issues the transport write with an empty
`versions` list, contradicting its own doc comment ("Must specify at
least one version."); its siblings `UndeleteSecretVersion` and
`DestroySecretVersion` do validate and issue no call. -/
theorem c2_deleteSecretVersion_zero_versions_bug :
    (Kv2.DeleteSecretVersion ⟨"/secret"⟩ trOkNone "app/creds" []).calls
      = [LogicalCall.write "/secret/delete/app/creds" [("versions", JVal.jarr [])]]
    ∧ (Kv2.DeleteSecretVersion ⟨"/secret"⟩ trOkNone "app/creds" []).res = .ok ()
    ∧ (Kv2.UndeleteSecretVersion ⟨"/secret"⟩ trOkNone "app/creds" []).res
        = .error (.errorsNew "kv2: must specify at least one version")
    ∧ (Kv2.UndeleteSecretVersion ⟨"/secret"⟩ trOkNone "app/creds" []).calls = []
    ∧ (Kv2.DestroySecretVersion ⟨"/secret"⟩ trOkNone "app/creds" []).res
        = .error (.errorsNew "kv2: must specify at least one version")
    ∧ (Kv2.DestroySecretVersion ⟨"/secret"⟩ trOkNone "app/creds" []).calls = [] :=
  ⟨rfl, rfl, rfl, rfl, rfl, rfl⟩

/-- C3 counterexample: `UndeleteSecretVersion` with the empty path does
not fail with an empty-path validation error — it issues the transport
write at `<mount>/undelete` and returns the transport's success. -/
theorem c3_counterexample :
    (Kv2.UndeleteSecretVersion ⟨"/secret"⟩ trOkNone "" [1]).calls
      = [LogicalCall.write "/secret/undelete" [("versions", JVal.jarr [JVal.jint 1])]]
    ∧ (Kv2.UndeleteSecretVersion ⟨"/secret"⟩ trOkNone "" [1]).res = .ok () :=
  ⟨rfl, rfl⟩

/-- C3 (amended): every path-taking operation that builds its path through
`secretPath` — all four cubbyhole and KVv1 operations, and the KVv2
read/write/list/metadata/delete-latest operations — fails on the empty
path with its facade's validation error and issues no transport call;
the KVv2 `DeleteSecretVersion`/`UndeleteSecretVersion`/
`DestroySecretVersion` perform no path validation and (given a non-empty
versions list where they require one) issue their write anyway. -/
theorem c3_empty_path_validation (c : Client) (tr : Transport) (data : SMap)
    (cfg : SecretConfig) (version : Int) (v : Int) (vs : List Int) :
    (Cubbyhole.ReadSecret c tr "" = ⟨.error .errEmptyPath, [], c⟩)
    ∧ (Cubbyhole.ListSecrets c tr "" = ⟨.error .errEmptyPath, [], c⟩)
    ∧ (Cubbyhole.WriteSecret c tr "" data = ⟨.error .errEmptyPath, [], c⟩)
    ∧ (Cubbyhole.DeleteSecret c tr "" = ⟨.error .errEmptyPath, [], c⟩)
    ∧ (Kv1.ReadSecret c tr ""
        = ⟨.error (.errorsNew "vault: secret path is empty"), [], c⟩)
    ∧ (Kv1.ListSecrets c tr ""
        = ⟨.error (.errorsNew "vault: secret path is empty"), [], c⟩)
    ∧ (Kv1.WriteSecret c tr "" data
        = ⟨.error (.errorsNew "vault: secret path is empty"), [], c⟩)
    ∧ (Kv1.DeleteSecret c tr ""
        = ⟨.error (.errorsNew "vault: secret path is empty"), [], c⟩)
    ∧ (Kv2.ReadSecretLatest c tr ""
        = ⟨.error (.errorsNew "kv2: secret path is empty"), [], c⟩)
    ∧ (Kv2.ReadSecretVersion c tr "" version
        = ⟨.error (.errorsNew "kv2: secret path is empty"), [], c⟩)
    ∧ (Kv2.WriteSecretLatest c tr "" data
        = ⟨.error (.errorsNew "kv2: secret path is empty"), [], c⟩)
    ∧ (Kv2.WriteSecretVersion c tr "" version data
        = ⟨.error (.errorsNew "kv2: secret path is empty"), [], c⟩)
    ∧ (Kv2.DeleteSecretLatest c tr ""
        = ⟨.error (.errorsNew "kv2: secret path is empty"), [], c⟩)
    ∧ (Kv2.ListSecrets c tr ""
        = ⟨.error (.errorsNew "kv2: secret path is empty"), [], c⟩)
    ∧ (Kv2.ReadSecretMetadata c tr ""
        = ⟨.error (.errorsNew "kv2: secret path is empty"), [], c⟩)
    ∧ (Kv2.WriteSecretMetadata c tr "" cfg
        = ⟨.error (.errorsNew "kv2: secret path is empty"), [], c⟩)
    ∧ (Kv2.DeleteSecretMetadata c tr ""
        = ⟨.error (.errorsNew "kv2: secret path is empty"), [], c⟩)
    ∧ ((Kv2.DeleteSecretVersion c tr "" vs).calls.length = 1)
    ∧ ((Kv2.UndeleteSecretVersion c tr "" (v :: vs)).calls.length = 1)
    ∧ ((Kv2.DestroySecretVersion c tr "" (v :: vs)).calls.length = 1) := by
  refine ⟨?_, ?_, ?_, ?_, ?_, ?_, ?_, ?_, ?_, ?_, ?_, ?_, ?_, ?_, ?_, ?_, ?_, ?_, ?_, ?_⟩ <;>
    simp [Cubbyhole.ReadSecret, Cubbyhole.ListSecrets, Cubbyhole.WriteSecret,
          Cubbyhole.DeleteSecret, Cubbyhole.secretPath,
          Kv1.ReadSecret, Kv1.ListSecrets, Kv1.WriteSecret, Kv1.DeleteSecret,
          Kv1.secretPath,
          Kv2.ReadSecretLatest, Kv2.ReadSecretVersion, Kv2.WriteSecretLatest,
          Kv2.WriteSecretVersion, Kv2.DeleteSecretLatest, Kv2.ListSecrets,
          Kv2.ReadSecretMetadata, Kv2.WriteSecretMetadata, Kv2.DeleteSecretMetadata,
          Kv2.secretPath, Kv2.DeleteSecretVersion, Kv2.UndeleteSecretVersion,
          Kv2.DestroySecretVersion]

/-- With a non-empty mount, `secretPath` (cubbyhole) either rejects the
empty path or joins with the existing mount, returning the client
unchanged. -/
theorem cubbyhole_secretPath_preserves (c : Client) (p : String) (hm : c.mountPath ≠ "") :
    Cubbyhole.secretPath c p = .error .errEmptyPath
    ∨ Cubbyhole.secretPath c p = .ok (pathJoin [c.mountPath, p], c) := by
  by_cases hp : p = ""
  · left; simp [Cubbyhole.secretPath, hp]
  · right; simp [Cubbyhole.secretPath, hp, mountOr, hm]

/-- With a non-empty mount, `secretPath` (KVv1) preserves the client. -/
theorem kv1_secretPath_preserves (c : Client) (p : String) (hm : c.mountPath ≠ "") :
    Kv1.secretPath c p = .error (.errorsNew "vault: secret path is empty")
    ∨ Kv1.secretPath c p = .ok (pathJoin [c.mountPath, p], c) := by
  by_cases hp : p = ""
  · left; simp [Kv1.secretPath, hp]
  · right; simp [Kv1.secretPath, hp, mountOr, hm]

/-- With a non-empty mount, `secretPath` (KVv2) preserves the client. -/
theorem kv2_secretPath_preserves (c : Client) (p : String) (metadata : Bool)
    (hm : c.mountPath ≠ "") :
    Kv2.secretPath c p metadata = .error (.errorsNew "kv2: secret path is empty")
    ∨ Kv2.secretPath c p metadata
        = .ok (pathJoin [c.mountPath, if metadata then "metadata" else "data", p], c) := by
  by_cases hp : p = ""
  · left; simp [Kv2.secretPath, hp]
  · right; simp [Kv2.secretPath, hp, mountOr, hm]

/-- C4 counterexample: on a facade constructed with mount `""`,
`UndeleteSecretVersion` does NOT default the mount — it builds the
transport path `undelete/p` (not under the documented default `/secret`)
and leaves the mount path empty. -/
theorem c4_counterexample :
    (Kv2.UndeleteSecretVersion ⟨""⟩ trOkNone "p" [1]).calls
      = [LogicalCall.write "undelete/p" [("versions", JVal.jarr [JVal.jint 1])]]
    ∧ (Kv2.UndeleteSecretVersion ⟨""⟩ trOkNone "p" [1]).fin.mountPath = ""
    ∧ "undelete/p" ≠ pathJoin [Kv2.defaultMountPath, "undelete", "p"] :=
  ⟨rfl, rfl, by decide⟩

/-- C4 (amended): operations that build their path through `secretPath` —
all cubbyhole and KVv1 operations and the KVv2 read/write/list/metadata/
delete-latest operations — default an empty mount path to the facade's
documented constant before building the transport path; the engine-config
operations and the three version operations use the mount as-is, without
defaulting. Once the mount path is non-empty no operation changes it, and
an operation failing the empty-path validation leaves the client (hence
the mount path) unmodified. -/
theorem c4_mount_defaulting_and_stability (c : Client) (tr : Transport) (p : String)
    (data : SMap) (cfg : SecretConfig) (version : Int) (vs : List Int) (c₀ : Client)
    (hp : p ≠ "") (hm : c.mountPath ≠ "") :
    (Cubbyhole.secretPath ⟨""⟩ p
       = .ok (pathJoin [Cubbyhole.defaultMountPath, p], ⟨Cubbyhole.defaultMountPath⟩))
    ∧ (Kv1.secretPath ⟨""⟩ p
       = .ok (pathJoin [Kv1.defaultMountPath, p], ⟨Kv1.defaultMountPath⟩))
    ∧ (Kv2.secretPath ⟨""⟩ p false
       = .ok (pathJoin [Kv2.defaultMountPath, "data", p], ⟨Kv2.defaultMountPath⟩))
    ∧ (Kv2.secretPath ⟨""⟩ p true
       = .ok (pathJoin [Kv2.defaultMountPath, "metadata", p], ⟨Kv2.defaultMountPath⟩))
    ∧ ((Kv2.SetEngineConfig ⟨""⟩ tr cfg).fin = ⟨""⟩
        ∧ (Kv2.SetEngineConfig ⟨""⟩ tr cfg).calls
            = [LogicalCall.write "config" (serializeSecretConfig cfg)])
    ∧ ((Kv2.EngineConfig ⟨""⟩ tr).fin = ⟨""⟩
        ∧ (Kv2.EngineConfig ⟨""⟩ tr).calls = [LogicalCall.read "config"])
    ∧ ((Cubbyhole.ReadSecret c tr p).fin = c)
    ∧ ((Cubbyhole.ListSecrets c tr p).fin = c)
    ∧ ((Cubbyhole.WriteSecret c tr p data).fin = c)
    ∧ ((Cubbyhole.DeleteSecret c tr p).fin = c)
    ∧ ((Kv1.ReadSecret c tr p).fin = c)
    ∧ ((Kv1.ListSecrets c tr p).fin = c)
    ∧ ((Kv1.WriteSecret c tr p data).fin = c)
    ∧ ((Kv1.DeleteSecret c tr p).fin = c)
    ∧ ((Kv2.ReadSecretLatest c tr p).fin = c)
    ∧ ((Kv2.ReadSecretVersion c tr p version).fin = c)
    ∧ ((Kv2.WriteSecretLatest c tr p data).fin = c)
    ∧ ((Kv2.WriteSecretVersion c tr p version data).fin = c)
    ∧ ((Kv2.DeleteSecretLatest c tr p).fin = c)
    ∧ ((Kv2.ListSecrets c tr p).fin = c)
    ∧ ((Kv2.ReadSecretMetadata c tr p).fin = c)
    ∧ ((Kv2.WriteSecretMetadata c tr p cfg).fin = c)
    ∧ ((Kv2.DeleteSecretMetadata c tr p).fin = c)
    ∧ ((Kv2.SetEngineConfig c tr cfg).fin = c)
    ∧ ((Kv2.EngineConfig c tr).fin = c)
    ∧ ((Kv2.DeleteSecretVersion c tr p vs).fin = c)
    ∧ ((Kv2.UndeleteSecretVersion c tr p vs).fin = c)
    ∧ ((Kv2.DestroySecretVersion c tr p vs).fin = c)
    ∧ ((Cubbyhole.ReadSecret c₀ tr "").fin = c₀)
    ∧ ((Cubbyhole.ListSecrets c₀ tr "").fin = c₀)
    ∧ ((Cubbyhole.WriteSecret c₀ tr "" data).fin = c₀)
    ∧ ((Cubbyhole.DeleteSecret c₀ tr "").fin = c₀)
    ∧ ((Kv1.ReadSecret c₀ tr "").fin = c₀)
    ∧ ((Kv1.ListSecrets c₀ tr "").fin = c₀)
    ∧ ((Kv1.WriteSecret c₀ tr "" data).fin = c₀)
    ∧ ((Kv1.DeleteSecret c₀ tr "").fin = c₀)
    ∧ ((Kv2.ReadSecretVersion c₀ tr "" version).fin = c₀)
    ∧ ((Kv2.WriteSecretVersion c₀ tr "" version data).fin = c₀)
    ∧ ((Kv2.DeleteSecretLatest c₀ tr "").fin = c₀)
    ∧ ((Kv2.ListSecrets c₀ tr "").fin = c₀)
    ∧ ((Kv2.ReadSecretMetadata c₀ tr "").fin = c₀)
    ∧ ((Kv2.WriteSecretMetadata c₀ tr "" cfg).fin = c₀)
    ∧ ((Kv2.DeleteSecretMetadata c₀ tr "").fin = c₀) := by
  have hch := cubbyhole_secretPath_preserves c p hm
  have hk1 := kv1_secretPath_preserves c p hm
  have hk2d := kv2_secretPath_preserves c p false hm
  have hk2m := kv2_secretPath_preserves c p true hm
  refine ⟨?_, ?_, ?_, ?_, ⟨rfl, rfl⟩, ⟨rfl, rfl⟩,
          ?_, ?_, ?_, ?_, ?_, ?_, ?_, ?_, ?_, ?_, ?_, ?_, ?_, ?_, ?_, ?_, ?_,
          rfl, rfl, rfl, ?_, ?_,
          ?_, ?_, ?_, ?_, ?_, ?_, ?_, ?_, ?_, ?_, ?_, ?_, ?_, ?_, ?_⟩
  · simp [Cubbyhole.secretPath, hp, mountOr]
  · simp [Kv1.secretPath, hp, mountOr]
  · simp [Kv2.secretPath, hp, mountOr]
  · simp [Kv2.secretPath, hp, mountOr]
  · rcases hch with h | h <;> simp [Cubbyhole.ReadSecret, h]
  · rcases hch with h | h <;> simp [Cubbyhole.ListSecrets, h]
  · rcases hch with h | h <;> simp [Cubbyhole.WriteSecret, h]
  · rcases hch with h | h <;> simp [Cubbyhole.DeleteSecret, h]
  · rcases hk1 with h | h <;> simp [Kv1.ReadSecret, h]
  · rcases hk1 with h | h <;> simp [Kv1.ListSecrets, h]
  · rcases hk1 with h | h <;> simp [Kv1.WriteSecret, h]
  · rcases hk1 with h | h <;> simp [Kv1.DeleteSecret, h]
  · rcases hk2d with h | h <;> simp [Kv2.ReadSecretLatest, Kv2.ReadSecretVersion, h]
  · rcases hk2d with h | h <;> simp [Kv2.ReadSecretVersion, h]
  · rcases hk2d with h | h <;> simp [Kv2.WriteSecretLatest, Kv2.WriteSecretVersion, h]
  · rcases hk2d with h | h <;> simp [Kv2.WriteSecretVersion, h]
  · rcases hk2d with h | h <;> simp [Kv2.DeleteSecretLatest, h]
  · rcases hk2m with h | h <;> simp [Kv2.ListSecrets, h]
  · rcases hk2m with h | h <;> simp [Kv2.ReadSecretMetadata, h]
  · rcases hk2m with h | h <;> simp [Kv2.WriteSecretMetadata, h]
  · rcases hk2m with h | h <;> simp [Kv2.DeleteSecretMetadata, h]
  · unfold Kv2.UndeleteSecretVersion; split <;> rfl
  · unfold Kv2.DestroySecretVersion; split <;> rfl
  · simp [Cubbyhole.ReadSecret, Cubbyhole.secretPath]
  · simp [Cubbyhole.ListSecrets, Cubbyhole.secretPath]
  · simp [Cubbyhole.WriteSecret, Cubbyhole.secretPath]
  · simp [Cubbyhole.DeleteSecret, Cubbyhole.secretPath]
  · simp [Kv1.ReadSecret, Kv1.secretPath]
  · simp [Kv1.ListSecrets, Kv1.secretPath]
  · simp [Kv1.WriteSecret, Kv1.secretPath]
  · simp [Kv1.DeleteSecret, Kv1.secretPath]
  · simp [Kv2.ReadSecretVersion, Kv2.secretPath]
  · simp [Kv2.WriteSecretVersion, Kv2.secretPath]
  · simp [Kv2.DeleteSecretLatest, Kv2.secretPath]
  · simp [Kv2.ListSecrets, Kv2.secretPath]
  · simp [Kv2.ReadSecretMetadata, Kv2.secretPath]
  · simp [Kv2.WriteSecretMetadata, Kv2.secretPath]
  · simp [Kv2.DeleteSecretMetadata, Kv2.secretPath]

/-- Witness for C4 (amended) at a concrete input: the defaulted cubbyhole
path for mount `""` and path `"x"`. -/
theorem c4_mount_defaulting_witness :
    ("x" : String) ≠ "" ∧ (Client.mk "/m").mountPath ≠ ""
    ∧ Cubbyhole.secretPath ⟨""⟩ "x"
        = .ok (pathJoin [Cubbyhole.defaultMountPath, "x"], ⟨Cubbyhole.defaultMountPath⟩) :=
  ⟨by decide, by decide,
   (c4_mount_defaulting_and_stability ⟨"/m"⟩ trOkNone "x" [] {} 0 [] ⟨""⟩
     (by decide) (by decide)).1⟩

/-- A transport whose reads answer with a small data envelope. -/
def trReadData : Transport := fun call =>
  match call with
  | .read _ => .ok (some ⟨[("foo", JVal.jstr "bar")]⟩)
  | _ => .ok none

/-- C5: cubbyhole `ReadSecret` on a nil or zero-length response envelope
returns an `os.PathError` whose path equals the joined mount+path and
whose cause is the `ErrNoSecretData` sentinel; on a non-empty response it
returns the envelope's data map exactly, with no error. -/
theorem c5_cubbyhole_readSecret_notFound (c : Client) (tr : Transport) (path : String)
    (resp : Option ApiSecret) (hp : path ≠ "")
    (hr : tr (.read (pathJoin [mountOr c.mountPath Cubbyhole.defaultMountPath, path]))
            = .ok resp) :
    (isEmptyResp resp = true →
      (Cubbyhole.ReadSecret c tr path).res
        = .error (.pathError "ReadSecret"
            (pathJoin [mountOr c.mountPath Cubbyhole.defaultMountPath, path])
            .errNoSecretData))
    ∧ (isEmptyResp resp = false →
      (Cubbyhole.ReadSecret c tr path).res = .ok (some (respData resp))) := by
  constructor <;> intro h <;>
    simp [Cubbyhole.ReadSecret, cubbyhole_secretPath_ok c path hp, hr, h]

/-- Witness for C5 at a concrete input (non-empty response). -/
theorem c5_cubbyhole_readSecret_notFound_witness :
    ("x" : String) ≠ ""
    ∧ trReadData (.read (pathJoin [mountOr (Client.mk "").mountPath
        Cubbyhole.defaultMountPath, "x"])) = .ok (some ⟨[("foo", JVal.jstr "bar")]⟩)
    ∧ (Cubbyhole.ReadSecret ⟨""⟩ trReadData "x").res
        = .ok (some [("foo", JVal.jstr "bar")]) :=
  ⟨by decide, rfl,
   (c5_cubbyhole_readSecret_notFound ⟨""⟩ trReadData "x"
      (some ⟨[("foo", JVal.jstr "bar")]⟩) (by decide) rfl).2 rfl⟩

/-- C6: KVv1 `ReadSecret` and `ListSecrets` on a nil or zero-length
response envelope return `nil, nil` (the zero value, no error), unlike
the cubbyhole store, whose `ReadSecret` returns the not-found path error
for the same condition. -/
theorem c6_kv1_empty_response_zero_value (c : Client) (tr : Transport) (path : String)
    (resp : Option ApiSecret) (hp : path ≠ "") (he : isEmptyResp resp = true) :
    (tr (.read (pathJoin [mountOr c.mountPath Kv1.defaultMountPath, path])) = .ok resp →
       (Kv1.ReadSecret c tr path).res = .ok none)
    ∧ (tr (.list (pathJoin [mountOr c.mountPath Kv1.defaultMountPath, path])) = .ok resp →
       (Kv1.ListSecrets c tr path).res = .ok none)
    ∧ (tr (.read (pathJoin [mountOr c.mountPath Cubbyhole.defaultMountPath, path]))
          = .ok resp →
       (Cubbyhole.ReadSecret c tr path).res
         = .error (.pathError "ReadSecret"
             (pathJoin [mountOr c.mountPath Cubbyhole.defaultMountPath, path])
             .errNoSecretData)) := by
  refine ⟨?_, ?_, ?_⟩ <;> intro hr <;>
    simp [Kv1.ReadSecret, Kv1.ListSecrets, Cubbyhole.ReadSecret,
          kv1_secretPath_ok c path hp, cubbyhole_secretPath_ok c path hp, hr, he]

/-- Witness for C6 at a concrete input (nil envelope). -/
theorem c6_kv1_empty_response_zero_value_witness :
    ("x" : String) ≠ "" ∧ isEmptyResp none = true
    ∧ (Kv1.ReadSecret ⟨""⟩ trOkNone "x").res = .ok none :=
  ⟨by decide, rfl,
   (c6_kv1_empty_response_zero_value ⟨""⟩ trOkNone "x" none (by decide) rfl).1 rfl⟩

/-- C7: `ReadSecretVersion` with a negative version issues a plain `Read`
(no version query) and equals `ReadSecretLatest` on the same path (whole
outcome: result, calls and state); with version ≥ 0 it issues a
`ReadWithData` whose query carries the decimal version string under
`"version"`. -/
theorem c7_readSecretVersion_dispatch (c : Client) (tr : Transport) (path : String)
    (version : Int) (hp : path ≠ "") :
    (version < 0 →
       Kv2.ReadSecretVersion c tr path version = Kv2.ReadSecretLatest c tr path
       ∧ (Kv2.ReadSecretVersion c tr path version).calls
           = [LogicalCall.read
               (pathJoin [mountOr c.mountPath Kv2.defaultMountPath, "data", path])])
    ∧ (0 ≤ version →
       (Kv2.ReadSecretVersion c tr path version).calls
         = [LogicalCall.readWithData
             (pathJoin [mountOr c.mountPath Kv2.defaultMountPath, "data", path])
             [("version", [toString version])]]) := by
  constructor
  · intro hv
    have h1 : ¬ version > -1 := by omega
    have h2 : ¬ (-1 : Int) > -1 := by omega
    constructor
    · simp [Kv2.ReadSecretVersion, Kv2.ReadSecretLatest,
            kv2_secretPath_ok c path false hp, h1, h2]
    · simp [Kv2.ReadSecretVersion, kv2_secretPath_ok c path false hp, h1]
  · intro hv
    have h1 : version > -1 := by omega
    simp [Kv2.ReadSecretVersion, kv2_secretPath_ok c path false hp, h1]

/-- Witness for C7 at a concrete input (`version = -5`). -/
theorem c7_readSecretVersion_dispatch_witness :
    ("x" : String) ≠ "" ∧ ((-5 : Int) < 0)
    ∧ Kv2.ReadSecretVersion ⟨""⟩ trOkNone "x" (-5)
        = Kv2.ReadSecretLatest ⟨""⟩ trOkNone "x" :=
  ⟨by decide, by decide,
   ((c7_readSecretVersion_dispatch ⟨""⟩ trOkNone "x" (-5) (by decide)).1 (by decide)).1⟩

/-- A concrete non-zero engine configuration. -/
def cfgEx : SecretConfig :=
  { MaxVersions := 3, CASRequired := true, DeleteVersionAfter := 0 }

/-- A transport that answers every read with the very map
`SetEngineConfig` serializes for `cfgEx`, nested under the envelope's
`data` field (the shape `EngineConfig` expects). -/
def trConfigEcho : Transport := fun call =>
  match call with
  | .read _ => .ok (some ⟨[("data", JVal.jobj (serializeSecretConfig cfgEx))]⟩)
  | _ => .ok none

/-- C8 (code bug): the serialize-then-decode round trip is NOT the identity.
`SetEngineConfig` writes the JSON-tag keys (`max_versions`,
`cas_required`, `delete_version_after`), but `EngineConfig` decodes with
mapstructure, which matches the Go field names (`MaxVersions`, ...) —
no key matches, so reading back the written map yields the zero config,
not the config written. -/
theorem c8_engineConfig_roundtrip_bug :
    (Kv2.SetEngineConfig ⟨"/secret"⟩ trConfigEcho cfgEx).calls
      = [LogicalCall.write "/secret/config" (serializeSecretConfig cfgEx)]
    ∧ serializeSecretConfig cfgEx
      = [("max_versions", JVal.jint 3), ("cas_required", JVal.jbool true)]
    ∧ (Kv2.EngineConfig ⟨"/secret"⟩ trConfigEcho).res = .ok ({} : SecretConfig)
    ∧ ({} : SecretConfig) ≠ cfgEx :=
  ⟨rfl, rfl, rfl, by decide⟩

/-- C9: `ReadSecretMetadata` issues a LIST (not a read) at the same
metadata path `ListSecrets` uses (the mount joined with `"metadata"` and
the path), and its result decodes the envelope's nested `data` field into
the `SecretMetadata` structure. -/
theorem c9_readSecretMetadata_list_call (c : Client) (tr : Transport) (path : String)
    (hp : path ≠ "") :
    ((Kv2.ReadSecretMetadata c tr path).calls
       = [LogicalCall.list
           (pathJoin [mountOr c.mountPath Kv2.defaultMountPath, "metadata", path])])
    ∧ ((Kv2.ReadSecretMetadata c tr path).calls = (Kv2.ListSecrets c tr path).calls)
    ∧ (∀ s : ApiSecret,
        tr (LogicalCall.list
             (pathJoin [mountOr c.mountPath Kv2.defaultMountPath, "metadata", path]))
           = .ok (some s) →
        s.data ≠ [] →
        (Kv2.ReadSecretMetadata c tr path).res
          = decodeDataEnvelope decodeSecretMetadata {} s.data) := by
  refine ⟨?_, ?_, ?_⟩
  · simp [Kv2.ReadSecretMetadata, kv2_secretPath_ok c path true hp]
  · simp [Kv2.ReadSecretMetadata, Kv2.ListSecrets, kv2_secretPath_ok c path true hp]
  · intro s hr hne
    simp [Kv2.ReadSecretMetadata, kv2_secretPath_ok c path true hp, hr,
          isEmptyResp, respData, List.isEmpty_iff, hne]

/-- A transport answering list calls with a metadata-shaped envelope. -/
def trListMeta : Transport := fun call =>
  match call with
  | .list _ => .ok (some ⟨[("data", JVal.jobj [("CurrentVersion", JVal.jint 2)])]⟩)
  | _ => .ok none

/-- Witness for C9 at a concrete input. -/
theorem c9_readSecretMetadata_list_call_witness :
    ("x" : String) ≠ ""
    ∧ (Kv2.ReadSecretMetadata ⟨""⟩ trListMeta "x").calls
        = [LogicalCall.list
            (pathJoin [mountOr (Client.mk "").mountPath Kv2.defaultMountPath,
                       "metadata", "x"])] :=
  ⟨by decide,
   (c9_readSecretMetadata_list_call ⟨""⟩ trListMeta "x" (by decide)).1⟩

/-- C10: on a non-empty list response envelope with no (fold-insensitive)
`keys` field — for KVv2, no nested `data.keys` — `ListSecrets` of each
facade returns a nil key list with no error. -/
theorem c10_listSecrets_missing_keys (c : Client) (tr : Transport) (path : String)
    (hp : path ≠ "") :
    (∀ s : ApiSecret,
       tr (LogicalCall.list (pathJoin [mountOr c.mountPath Cubbyhole.defaultMountPath,
             path])) = .ok (some s) →
       s.data ≠ [] → lookupFold s.data "keys" = none →
       (Cubbyhole.ListSecrets c tr path).res = .ok none)
    ∧ (∀ s : ApiSecret,
       tr (LogicalCall.list (pathJoin [mountOr c.mountPath Kv1.defaultMountPath,
             path])) = .ok (some s) →
       s.data ≠ [] → lookupFold s.data "keys" = none →
       (Kv1.ListSecrets c tr path).res = .ok none)
    ∧ (∀ s : ApiSecret,
       tr (LogicalCall.list (pathJoin [mountOr c.mountPath Kv2.defaultMountPath,
             "metadata", path])) = .ok (some s) →
       s.data ≠ [] →
       (lookupFold s.data "Data" = none
         ∨ ∃ inner, lookupFold s.data "Data" = some (JVal.jobj inner)
             ∧ lookupFold inner "keys" = none) →
       (Kv2.ListSecrets c tr path).res = .ok none) := by
  refine ⟨?_, ?_, ?_⟩
  · intro s hr hne hk
    simp [Cubbyhole.ListSecrets, cubbyhole_secretPath_ok c path hp, hr,
          isEmptyResp, respData, List.isEmpty_iff, hne,
          decodeKeysEnvelope, decodeField, hk]
  · intro s hr hne hk
    simp [Kv1.ListSecrets, kv1_secretPath_ok c path hp, hr,
          isEmptyResp, respData, List.isEmpty_iff, hne,
          decodeKeysEnvelope, decodeField, hk]
  · intro s hr hne hk
    rcases hk with hk | ⟨inner, hk, hki⟩
    · simp [Kv2.ListSecrets, kv2_secretPath_ok c path true hp, hr,
            isEmptyResp, respData, List.isEmpty_iff, hne,
            decodeKeysEnvelopeV2, hk]
    · simp [Kv2.ListSecrets, kv2_secretPath_ok c path true hp, hr,
            isEmptyResp, respData, List.isEmpty_iff, hne,
            decodeKeysEnvelopeV2, decodeField, hk, hki]

/-- A transport answering list calls with a non-empty envelope that has
no `keys` field anywhere. -/
def trListNoKeys : Transport := fun call =>
  match call with
  | .list _ => .ok (some ⟨[("warnings", JVal.jstr "w")]⟩)
  | _ => .ok none

/-- Witness for C10 at a concrete input. -/
theorem c10_listSecrets_missing_keys_witness :
    ("x" : String) ≠ ""
    ∧ lookupFold [("warnings", JVal.jstr "w")] "keys" = none
    ∧ (Cubbyhole.ListSecrets ⟨""⟩ trListNoKeys "x").res = .ok none :=
  ⟨by decide, rfl,
   (c10_listSecrets_missing_keys ⟨""⟩ trListNoKeys "x" (by decide)).1
     ⟨[("warnings", JVal.jstr "w")]⟩ rfl (by simp) rfl⟩

end VaultModel
